import Mathlib

/-!
Verification development for the LCA Assistant conversational core:
the multi-turn action-execution loop with hallucination guard, the
conversation-context store, and the frontend results-panel guard.

The React frontend components (`App.jsx` inside
`frontend/src/components/ConversationHeader.jsx` and the copy in the
repository root component file) are embedded directly from their source.
The backend action loop lives in `backend/app.py`, which is not part of
the available source tree; it is modelled from the specification (§4.1)
and from the pseudocode the repository documents for it in
`docs/RECENT_FEATURES.md` (Layer 1/2 hallucination prevention,
`chat_endpoint` multi-turn loop, `build_failure_message`,
`suggest_databases`).
-/

set_option maxRecDepth 4096

namespace LcaApp

/-- Modelled from the spec: `MAX_ITERATIONS` (5), the hard cap on loop
rounds per user turn (`max_turns = 5` in the documented pseudocode). -/
def MAX_ITERATIONS : Nat := 5

/-- Modelled from the spec: `MAX_EMPTY_SEARCHES` (2), the consecutive
empty-search cap (`max_empty_searches = 2` in the documented pseudocode). -/
def MAX_EMPTY_SEARCHES : Nat := 2

/-- One search hit returned by the external database gateway. -/
structure SearchItem where
  id : String
  name : String
deriving Repr, DecidableEq

/-- One impact-category line of a calculation result. -/
structure Impact where
  category : String
  amount : Int
  unitName : String
deriving Repr, DecidableEq

/-- Modelled from the spec: the validated action kinds the loop can
execute (§3 ActionRequest, the 4 known kinds). -/
inductive Action where
  | searchProcesses (query : String) (limit : Nat)
  | searchProductSystems (query : String) (limit : Nat)
  | calculateLcia (processId : String) (amount : Int) (methodId : String)
  | calculateLciaPs (productSystemId : String) (amount : Int) (methodId : String)
deriving Repr, DecidableEq

/-- Modelled from the spec: the raw action directive embedded in a model
reply before its kind is validated; `kind` is an arbitrary string. -/
structure RawDirective where
  kind : String
  query : String
  limit : Nat
  targetId : String
  amount : Int
  methodId : String
deriving Repr, DecidableEq

/-- One reply of the language model: its natural-language text (net of
the action-protocol markup) and the embedded directive, if any. -/
structure ModelReply where
  text : String
  directive : Option RawDirective
deriving Repr, DecidableEq

/-- The 4 action kinds the loop recognizes. -/
def knownActionKinds : List String :=
  ["search_processes", "search_product_systems", "calculate_lcia", "calculate_lcia_ps"]

/-- Modelled from the spec: `parse_action` validates a directive against
the 4 known kinds; an absent directive or an unrecognized kind yields no
action (fail open, §4.1 steps 2-3). -/
def parse_action : Option RawDirective → Option Action
  | none => none
  | some d =>
    if d.kind = "search_processes" then
      some (Action.searchProcesses d.query d.limit)
    else if d.kind = "search_product_systems" then
      some (Action.searchProductSystems d.query d.limit)
    else if d.kind = "calculate_lcia" then
      some (Action.calculateLcia d.targetId d.amount d.methodId)
    else if d.kind = "calculate_lcia_ps" then
      some (Action.calculateLciaPs d.targetId d.amount d.methodId)
    else
      none

/-- The external gateway response to one executed action (§6). -/
inductive GatewayResult where
  | searchResults (items : List SearchItem)
  | calcResults (impacts : List Impact) (goalScope : String)
  | gatewayError (msg : String)
deriving Repr, DecidableEq

/-- For a search action answered with a result list, its query and the
number of hits; `none` for calculations and gateway errors (only proper
search result lists drive the empty-search counter, §4.1 step 5). -/
def searchInfo : Action → GatewayResult → Option (String × Nat)
  | Action.searchProcesses q _, GatewayResult.searchResults items => some (q, items.length)
  | Action.searchProductSystems q _, GatewayResult.searchResults items => some (q, items.length)
  | _, _ => none

/-- One alternative-database recommendation from the Database Guidance
knowledge base. -/
structure DbRec where
  name : String
  reason : String
deriving Repr, DecidableEq

/-- Database Guidance knowledge-base entry for one database (§6):
its declared strengths and its default alternative recommendations. -/
structure DbGuidance where
  strengths : List String
  alternatives : List DbRec
deriving Repr, DecidableEq

/-- Concatenation of a list of strings (the string a sequence of
python `+=` appends produces). -/
def concatList : List String → String
  | [] => ""
  | s :: rest => s ++ concatList rest

/-- Modelled from the spec: `suggest_databases`, the food/energy/US
keyword heuristic over the query, falling back to the current database
guidance alternatives (`suggest_alternative_database` pseudocode in
`docs/RECENT_FEATURES.md`). -/
def suggest_databases (query : String) (currentDb : String)
    (guidance : String → DbGuidance) : List DbRec :=
  if (query.splitOn "food").length > 1 ∨ (query.splitOn "agriculture").length > 1 then
    [⟨"Agribalyse", "specialized in food products"⟩]
  else if (query.splitOn "energy").length > 1 ∨ (query.splitOn "electricity").length > 1 then
    [⟨"NEEDS", "focused on energy systems"⟩]
  else if (query.splitOn "US").length > 1 then
    [⟨"USLCI", "US-specific data"⟩, ⟨"LCA Commons", "US-specific data"⟩]
  else
    (guidance currentDb).alternatives

/-- Modelled from the spec: `build_failure_message` (pseudocode in
`docs/RECENT_FEATURES.md`): names the failed query and the database,
lists the database strengths, lists the recommendations, and invites a
switch. Written right-nested so each named part is exhibited directly. -/
def build_failure_message (query : String) (dbName : String)
    (strengths : List String) (recs : List DbRec) (attempts : Nat) : String :=
  "I could not find " ++
    (query ++
      (" in " ++
        (dbName ++
          (" after " ++
            (toString attempts ++
              (" search attempts\n\n" ++
                (dbName ++
                  (" specializes in\n" ++
                    (concatList (strengths.map (fun s => "- " ++ (s ++ "\n"))) ++
                      ("\nFor this type of query, I recommend\n" ++
                        (concatList (recs.map (fun r => "-> " ++ (r.name ++ (" - " ++ (r.reason ++ "\n"))))) ++
                          "\nWould you like me to switch databases for you?")))))))))))

/-- Terminal state of one turn of the action loop (§4.1). -/
inductive LoopState where
  | done
  | forcedFailure
deriving Repr, DecidableEq

/-- The structured action payload a finished turn carries: either the
last executed action together with its gateway result, or the
`search_failed` sentinel with query, attempt count and suggestions. -/
inductive ActionPayload where
  | executed (a : Action) (r : GatewayResult)
  | searchFailed (query : String) (attempts : Nat) (suggestions : List DbRec)
deriving Repr, DecidableEq

/-- One role-tagged transcript entry (§3 `messages`). -/
structure TranscriptMsg where
  role : String
  content : String
deriving Repr, DecidableEq

/-- The internal action-result transcript entry folded back for the
model (the documented `[Action Results: ...]` entry). -/
def actionResultMsg (a : Action) (r : GatewayResult) : TranscriptMsg :=
  ⟨"assistant", "[Action Results] " ++ (reprStr a ++ (" " ++ reprStr r))⟩

/-- Everything a finished turn yields: terminal state, reply text,
structured action, number of gateway calls, the empty-search counter
value recorded after each counted search, and the action-result
transcript entries appended during the turn. -/
structure TurnResult where
  state : LoopState
  replyText : String
  action : Option ActionPayload
  gatewayCalls : Nat
  emptyTrace : List Nat
  transcript : List TranscriptMsg
deriving Repr, DecidableEq

/-- Static configuration of one turn: active database id and name, and
the Database Guidance knowledge base. -/
structure LoopConfig where
  dbId : String
  dbName : String
  guidance : String → DbGuidance

/-- Modelled from the spec: one-turn action loop of `backend/app.py`
(§4.1 state machine; `chat_endpoint` pseudocode in
`docs/RECENT_FEATURES.md`). Arguments after the gateway: remaining
fuel (iterations left of the 5 budget), iteration index, empty-search
counter, gateway-call count, reversed empty-counter trace, last
executed action payload, last model reply text, transcript so far. -/
def loopGo (cfg : LoopConfig) (model : Nat → ModelReply)
    (gateway : Nat → Action → GatewayResult) :
    Nat → Nat → Nat → Nat → List Nat → Option ActionPayload → String →
    List TranscriptMsg → TurnResult
  | 0, _, _, calls, trace, lastA, lastT, tr =>
      ⟨LoopState.done, lastT, lastA, calls, trace.reverse, tr⟩
  | fuel + 1, it, ec, calls, trace, lastA, _, tr =>
      let reply := model it
      match parse_action reply.directive with
      | none =>
          ⟨LoopState.done, reply.text, lastA, calls, trace.reverse, tr⟩
      | some a =>
          let r := gateway it a
          match searchInfo a r with
          | some (q, len) =>
              let ec2 := if len = 0 then ec + 1 else 0
              if MAX_EMPTY_SEARCHES ≤ ec2 then
                let recs := suggest_databases q cfg.dbId cfg.guidance
                ⟨LoopState.forcedFailure,
                  build_failure_message q cfg.dbName (cfg.guidance cfg.dbId).strengths recs ec2,
                  some (ActionPayload.searchFailed q ec2 recs),
                  calls + 1, (ec2 :: trace).reverse, tr⟩
              else
                loopGo cfg model gateway fuel (it + 1) ec2 (calls + 1) (ec2 :: trace)
                  (some (ActionPayload.executed a r)) reply.text
                  (tr ++ [actionResultMsg a r])
          | none =>
              loopGo cfg model gateway fuel (it + 1) ec (calls + 1) trace
                (some (ActionPayload.executed a r)) reply.text
                (tr ++ [actionResultMsg a r])

/-- Modelled from the spec: run one full turn of the action loop from
the initial state `Running(0, 0)` with the full 5-iteration budget. -/
def runLoop (cfg : LoopConfig) (model : Nat → ModelReply)
    (gateway : Nat → Action → GatewayResult) : TurnResult :=
  loopGo cfg model gateway MAX_ITERATIONS 0 0 0 [] none "" []

/-- A sample Database Guidance knowledge base used in concrete runs. -/
def sampleGuidance : String → DbGuidance := fun _ =>
  ⟨["industrial materials", "European manufacturing processes"],
   [⟨"Agribalyse", "food and agriculture products"⟩]⟩

/-- A sample loop configuration: ELCD active. -/
def sampleCfg : LoopConfig := ⟨"elcd", "ELCD", sampleGuidance⟩

/-- Interaction mode of a conversation (§3 `mode`). -/
inductive Mode where
  | auto
  | interactive
deriving Repr, DecidableEq

/-- Modelled from the spec: the anti-hallucination rules shared verbatim
by both mode prompts (Layer 3 in `docs/RECENT_FEATURES.md`, §4.2). -/
def guardRulesText : String :=
  "CRITICAL - HALLUCINATION PREVENTION\n" ++
  "- NEVER fabricate or estimate LCIA impact numbers\n" ++
  "- NEVER make up process data\n" ++
  "- If searches fail after 2 attempts, admit data not found\n" ++
  "- Suggest alternative databases or search terms\n" ++
  "- Be honest about limitations"

/-- Modelled from the spec: the auto-mode bias rules
(`backend/app.py` auto system prompt per `docs/RECENT_FEATURES.md`). -/
def autoBiasText : String :=
  "You are an autonomous LCA assistant. Your goal is SPEED and EFFICIENCY.\n" ++
  "- Make smart assumptions from context\n" ++
  "- If 1 search result, use it without asking\n" ++
  "- If multiple results, pick the most relevant\n" ++
  "- Extract amounts and units from the user query\n" ++
  "- Minimize back-and-forth questions"

/-- Modelled from the spec: the interactive-mode bias rules
(`backend/app.py` interactive system prompt per `docs/RECENT_FEATURES.md`). -/
def interactiveBiasText : String :=
  "You are an educational LCA assistant. Your goal is LEARNING and PRECISION.\n" ++
  "- Ask clarifying questions when more than one option\n" ++
  "- Explain your choices and reasoning\n" ++
  "- Confirm extracted amounts before calculating\n" ++
  "- Describe LCIA methods when selecting\n" ++
  "- Be conversational and educational"

/-- Modelled from the spec: the Prompt Builder (§4.2): one system
instruction block per turn, mode bias first, then the shared
hallucination-guard rules, then database and knowledge-base context. -/
def buildPrompt (mode : Mode) (dbName : String) (kbText : String) : String :=
  (match mode with
   | Mode.auto => autoBiasText
   | Mode.interactive => interactiveBiasText) ++
  ("\n\n" ++
    (guardRulesText ++
      ("\n\nActive database " ++
        (dbName ++
          ("\n" ++ kbText)))))

/-- Modelled from the spec: run one turn under a given mode: the
mode-appropriate system prompt is built once and handed to the model,
then the action loop runs (§4.1 step 1, §4.2). The model script takes
the system prompt and the iteration index. -/
def runTurnMode (cfg : LoopConfig) (mode : Mode) (kbText : String)
    (model : String → Nat → ModelReply)
    (gateway : Nat → Action → GatewayResult) : TurnResult :=
  runLoop cfg (model (buildPrompt mode cfg.dbName kbText)) gateway

/-- One entry of `databaseHistory` (§3). -/
structure DbChange where
  fromDb : String
  toDb : String
  timestamp : Nat
deriving Repr, DecidableEq

/-- One entry of `methodHistory` (§3). -/
structure MethodChange where
  fromId : Option String
  fromMode : String
  toId : Option String
  toMode : String
  timestamp : Nat
deriving Repr, DecidableEq

/-- Per-conversation context (§3 ConversationContext,
`backend/services/conversation_service.py` per `docs/RECENT_FEATURES.md`). -/
structure ConversationContext where
  id : String
  databaseId : String
  methodId : Option String
  methodSelectionMode : String
  mode : Mode
  messages : List TranscriptMsg
  databaseHistory : List DbChange
  methodHistory : List MethodChange
  createdAt : Nat
  lastUpdatedAt : Nat
deriving Repr, DecidableEq

/-- Modelled from the spec: `applyDatabaseSelection` (§4.3): no-op if
the database is unchanged; otherwise appends one history entry and
mutates `databaseId` only. -/
def applyDatabaseSelection (ctx : ConversationContext) (newDatabaseId : String)
    (t : Nat) : ConversationContext :=
  if newDatabaseId = ctx.databaseId then ctx
  else
    { ctx with
      databaseId := newDatabaseId,
      databaseHistory := ctx.databaseHistory ++ [⟨ctx.databaseId, newDatabaseId, t⟩],
      lastUpdatedAt := t }

/-- Modelled from the spec: `applyMethodSelection` (§4.3): derives
`methodSelectionMode` from nullability of the new method id (§3),
appends one history entry, mutates. The frontend twin is
`handleMethodChange` below. -/
def applyMethodSelection (ctx : ConversationContext) (newMethodId : Option String)
    (t : Nat) : ConversationContext :=
  let newMode := match newMethodId with
    | none => "auto"
    | some _ => "manual"
  { ctx with
    methodId := newMethodId,
    methodSelectionMode := newMode,
    methodHistory := ctx.methodHistory ++
      [⟨ctx.methodId, ctx.methodSelectionMode, newMethodId, newMode, t⟩],
    lastUpdatedAt := t }

/-- `appendMessage` (§4.3): append-only transcript extension. -/
def appendMessage (ctx : ConversationContext) (m : TranscriptMsg) : ConversationContext :=
  { ctx with messages := ctx.messages ++ [m] }

/-- One database of the configured catalog with its availability, as the
chat endpoint sees it (`get_database_info` in
`docs/DATABASE_SELECTION_FIXES.md` excerpt). -/
structure DbCatalogEntry where
  name : String
  available : Bool
deriving Repr, DecidableEq

/-- The synchronous failures `runTurn` can surface (§6 error surface). -/
inductive TurnError where
  | invalidDatabase
  | upstreamModelError
deriving Repr, DecidableEq

/-- Modelled from the spec: `runTurn` (§6): checks that the selected
database is known and available before anything else; on failure the
turn is not started (no model call, no gateway call, no transcript
mutation). Otherwise the user message is appended, the loop runs, and
the action-result entries are folded into the context transcript. -/
def runTurn (catalog : String → Option DbCatalogEntry)
    (guidance : String → DbGuidance) (kbText : String)
    (ctx : ConversationContext) (userMessage : String)
    (model : String → Nat → ModelReply)
    (gateway : Nat → Action → GatewayResult) :
    Except TurnError TurnResult × ConversationContext :=
  match catalog ctx.databaseId with
  | none => (Except.error TurnError.invalidDatabase, ctx)
  | some info =>
      if info.available then
        let cfg : LoopConfig := ⟨ctx.databaseId, info.name, guidance⟩
        let ctx1 := appendMessage ctx ⟨"user", userMessage⟩
        let res := runTurnMode cfg ctx.mode kbText model gateway
        (Except.ok res, { ctx1 with messages := ctx1.messages ++ res.transcript })
      else
        (Except.error TurnError.invalidDatabase, ctx)

/-- Calculation results payload as the frontend receives it
(the `data.action.results` object in `App.jsx`). -/
structure CalcResults where
  impacts : List Impact
  goal_scope : Option String
  used_method_id : Option String
deriving Repr, DecidableEq

/-- The `data.action` object of a chat response as the frontend reads
it: a `type` string and an optional `results` field (`App.jsx`). -/
structure FrontendAction where
  type : String
  results : Option CalcResults
deriving Repr, DecidableEq

/-- The body of a chat response as the frontend reads it (`App.jsx`). -/
structure ChatResponse where
  message : String
  action : Option FrontendAction
deriving Repr, DecidableEq

/-- One entry of the results panel list (`App.jsx` `lciaResults`). -/
structure LciaEntry where
  results : CalcResults
  timestamp : String
  goal_scope : Option String
deriving Repr, DecidableEq

/-- Embedded from `App.jsx` `handleSendMessage`: the `lciaResults`
update. A new entry is appended exactly when `data.action` is present,
`data.action.results` is non-null, and the action type is
`calculate_lcia` or `calculate_lcia_ps`; otherwise the list is returned
unchanged. -/
def updateLciaResults (lciaResults : List LciaEntry) (data : ChatResponse)
    (now : String) : List LciaEntry :=
  match data.action with
  | none => lciaResults
  | some a =>
      match a.results with
      | none => lciaResults
      | some r =>
          if a.type = "calculate_lcia" ∨ a.type = "calculate_lcia_ps" then
            lciaResults ++ [⟨r, now, r.goal_scope⟩]
          else
            lciaResults

/-- Embedded from `App.jsx` `handleMethodChange`: selecting a method id
sets the selection, and the selection mode is `auto` exactly when the
new id is null. -/
def handleMethodChange (selectedMethod : Option String)
    (newMethodId : Option String) : Option String × String :=
  let _ := selectedMethod
  (newMethodId, if newMethodId = none then "auto" else "manual")

/-- The string `sub` occurs inside `msg`, with an explicit context. -/
def mentions (msg sub : String) : Prop :=
  ∃ pre post, msg = pre ++ (sub ++ post)

lemma mentions_append_left (a : String) {msg sub : String}
    (h : mentions msg sub) : mentions (a ++ msg) sub := by
  obtain ⟨pre, post, rfl⟩ := h
  exact ⟨a ++ pre, post, (String.append_assoc a pre (sub ++ post)).symm⟩

lemma mentions_append_right (b : String) {msg sub : String}
    (h : mentions msg sub) : mentions (msg ++ b) sub := by
  obtain ⟨pre, post, rfl⟩ := h
  refine ⟨pre, post ++ b, ?_⟩
  rw [String.append_assoc, String.append_assoc]

lemma mentions_refl (s : String) : mentions s s :=
  ⟨"", "", by simp⟩

lemma concatList_mentions {l : List String} {s : String} (h : s ∈ l) :
    mentions (concatList l) s := by
  induction l with
  | nil => cases h
  | cons a rest ih =>
      rcases List.mem_cons.mp h with rfl | hmem
      · exact ⟨"", concatList rest, by simp [concatList]⟩
      · exact mentions_append_left a (ih hmem)

/-- Iteration `i` of a scripted run issues no empty search: whatever
action the reply carries, the gateway does not answer it with an empty
search result list. -/
def noEmptySearchAt (model : Nat → ModelReply)
    (gateway : Nat → Action → GatewayResult) (i : Nat) : Prop :=
  ∀ a q, parse_action (model i).directive = some a →
    searchInfo a (gateway i a) ≠ some (q, 0)

lemma loopGo_calls_le (cfg : LoopConfig) (model : Nat → ModelReply)
    (gateway : Nat → Action → GatewayResult) :
    ∀ fuel it ec calls trace lastA lastT tr,
      (loopGo cfg model gateway fuel it ec calls trace lastA lastT tr).gatewayCalls ≤
        calls + fuel := by
  intro fuel
  induction fuel with
  | zero => intro it ec calls trace lastA lastT tr; simp [loopGo]
  | succ n ih =>
      intro it ec calls trace lastA lastT tr
      simp only [loopGo]
      repeat' split
      all_goals try exact le_trans (ih _ _ _ _ _ _ _) (by omega)
      all_goals dsimp only
      all_goals omega

lemma loopGo_all_valid (cfg : LoopConfig) (model : Nat → ModelReply)
    (gateway : Nat → Action → GatewayResult) :
    ∀ fuel it calls trace lastA lastT tr,
      (∀ i, it ≤ i → i < it + fuel →
        (parse_action (model i).directive).isSome ∧ noEmptySearchAt model gateway i) →
      (loopGo cfg model gateway fuel it 0 calls trace lastA lastT tr).state = LoopState.done ∧
      (loopGo cfg model gateway fuel it 0 calls trace lastA lastT tr).gatewayCalls = calls + fuel ∧
      (loopGo cfg model gateway fuel it 0 calls trace lastA lastT tr).replyText =
        (if fuel = 0 then lastT else (model (it + fuel - 1)).text) := by
  intro fuel
  induction fuel with
  | zero => intro it calls trace lastA lastT tr _; simp [loopGo]
  | succ n ih =>
      intro it calls trace lastA lastT tr h
      obtain ⟨hsome, hne⟩ := h it (le_refl it) (by omega)
      obtain ⟨a, hpa⟩ := Option.isSome_iff_exists.mp hsome
      have hrest : ∀ i, it + 1 ≤ i → i < (it + 1) + n →
          (parse_action (model i).directive).isSome ∧ noEmptySearchAt model gateway i := by
        intro i h1 h2; exact h i (by omega) (by omega)
      have hidx : it + 1 + n - 1 = it + (n + 1) - 1 := by omega
      cases hsi : searchInfo a (gateway it a) with
      | none =>
          have heq : loopGo cfg model gateway (n + 1) it 0 calls trace lastA lastT tr
              = loopGo cfg model gateway n (it + 1) 0 (calls + 1) trace
                  (some (ActionPayload.executed a (gateway it a))) (model it).text
                  (tr ++ [actionResultMsg a (gateway it a)]) := by
            simp only [loopGo, hpa, hsi]
          obtain ⟨s1, s2, s3⟩ := ih (it + 1) (calls + 1) trace
            (some (ActionPayload.executed a (gateway it a))) (model it).text
            (tr ++ [actionResultMsg a (gateway it a)]) hrest
          rw [heq]
          refine ⟨s1, by rw [s2]; omega, ?_⟩
          rw [s3]
          rcases Nat.eq_zero_or_pos n with rfl | hn
          · simp
          · have h1 : ¬ (n = 0) := by omega
            have h2 : ¬ (n + 1 = 0) := by omega
            rw [if_neg h1, if_neg h2, hidx]
      | some p =>
          obtain ⟨q, len⟩ := p
          have hlen : ¬ (len = 0) := by
            intro hz
            exact hne a q hpa (by rw [hsi, hz])
          have heq : loopGo cfg model gateway (n + 1) it 0 calls trace lastA lastT tr
              = loopGo cfg model gateway n (it + 1) 0 (calls + 1) (0 :: trace)
                  (some (ActionPayload.executed a (gateway it a))) (model it).text
                  (tr ++ [actionResultMsg a (gateway it a)]) := by
            simp only [loopGo, hpa, hsi, if_neg hlen]
            norm_num [MAX_EMPTY_SEARCHES]
          obtain ⟨s1, s2, s3⟩ := ih (it + 1) (calls + 1) (0 :: trace)
            (some (ActionPayload.executed a (gateway it a))) (model it).text
            (tr ++ [actionResultMsg a (gateway it a)]) hrest
          rw [heq]
          refine ⟨s1, by rw [s2]; omega, ?_⟩
          rw [s3]
          rcases Nat.eq_zero_or_pos n with rfl | hn
          · simp
          · have h1 : ¬ (n = 0) := by omega
            have h2 : ¬ (n + 1 = 0) := by omega
            rw [if_neg h1, if_neg h2, hidx]

/-- Claim C1: in a turn whose first two iterations issue searches that
both return empty result lists, the loop transitions to `ForcedFailure`
immediately after the second empty search: exactly 2 gateway calls are
performed and no 3rd is ever issued, regardless of the remaining
iteration budget (the model and gateway scripts beyond iteration 1 are
universally quantified and never consulted). -/
theorem empty_search_guard_stops_after_two (cfg : LoopConfig)
    (model : Nat → ModelReply) (gateway : Nat → Action → GatewayResult)
    (q0 q1 : String) (l0 l1 : Nat)
    (h0 : parse_action (model 0).directive = some (Action.searchProcesses q0 l0))
    (h1 : parse_action (model 1).directive = some (Action.searchProcesses q1 l1))
    (g0 : gateway 0 (Action.searchProcesses q0 l0) = GatewayResult.searchResults [])
    (g1 : gateway 1 (Action.searchProcesses q1 l1) = GatewayResult.searchResults []) :
    (runLoop cfg model gateway).state = LoopState.forcedFailure ∧
    (runLoop cfg model gateway).gatewayCalls = 2 ∧
    (runLoop cfg model gateway).action =
      some (ActionPayload.searchFailed q1 2 (suggest_databases q1 cfg.dbId cfg.guidance)) := by
  unfold runLoop MAX_ITERATIONS
  simp only [loopGo, h0, g0, h1, g1, searchInfo, MAX_EMPTY_SEARCHES]
  norm_num

/-- A two-empty-searches script used as the concrete witness run. -/
def guardWitModel : Nat → ModelReply := fun i =>
  if i = 0 then ⟨"searching once", some ⟨"search_processes", "unicorn horn", 5, "", 0, ""⟩⟩
  else ⟨"searching twice", some ⟨"search_processes", "unicorn", 5, "", 0, ""⟩⟩

/-- A gateway that finds nothing, ever. -/
def emptyGateway : Nat → Action → GatewayResult := fun _ _ =>
  GatewayResult.searchResults []

/-- Witness for C1: the guard theorem applied to a concrete
two-empty-searches run against ELCD. -/
theorem empty_search_guard_stops_after_two_witness :
    (runLoop sampleCfg guardWitModel emptyGateway).state = LoopState.forcedFailure ∧
    (runLoop sampleCfg guardWitModel emptyGateway).gatewayCalls = 2 ∧
    (runLoop sampleCfg guardWitModel emptyGateway).action =
      some (ActionPayload.searchFailed "unicorn" 2
        (suggest_databases "unicorn" sampleCfg.dbId sampleCfg.guidance)) :=
  empty_search_guard_stops_after_two sampleCfg guardWitModel emptyGateway
    "unicorn horn" "unicorn" 5 5 (by rfl) (by rfl) (by rfl) (by rfl)

/-- A script whose every reply carries a valid search action that the
gateway always answers with an empty result list. -/
def c2CexModel : Nat → ModelReply := fun _ =>
  ⟨"searching", some ⟨"search_processes", "widget", 5, "", 0, ""⟩⟩

/-- Counterexample to claim C2 as stated: a sequence of model replies
that all contain a valid executable action on which the loop does NOT
terminate in the `Done` state — two consecutive empty searches trip the
hallucination guard first and the run ends in `ForcedFailure` (after 2
gateway calls, not 5). The guard takes priority over the iteration
budget, so "always contains a valid action" alone does not imply a
`Done` termination. -/
theorem iteration_bound_done_counterexample :
    (∀ i, (parse_action (c2CexModel i).directive).isSome) ∧
    (runLoop sampleCfg c2CexModel emptyGateway).state = LoopState.forcedFailure ∧
    ¬ ((runLoop sampleCfg c2CexModel emptyGateway).state = LoopState.done) := by
  refine ⟨fun i => rfl, by rfl, by decide⟩

/-- Claim C2 (amended): `runLoop` performs at most 5 gateway calls for
every script whatsoever — guard-tripping runs included, with no
hypothesis; and for any sequence of model replies that always contain
a valid executable action, provided the empty-search guard never trips
(no iteration issues a search answered with an empty result list), the
loop performs exactly 5 gateway calls and terminates gracefully in the
`Done` state using the last reply text the model produced. -/
theorem iteration_bound_graceful_termination (cfg : LoopConfig)
    (model : Nat → ModelReply) (gateway : Nat → Action → GatewayResult) :
    (runLoop cfg model gateway).gatewayCalls ≤ MAX_ITERATIONS ∧
    ((∀ i, i < MAX_ITERATIONS →
        (parse_action (model i).directive).isSome ∧ noEmptySearchAt model gateway i) →
      (runLoop cfg model gateway).state = LoopState.done ∧
      (runLoop cfg model gateway).gatewayCalls = MAX_ITERATIONS ∧
      (runLoop cfg model gateway).replyText = (model 4).text) := by
  unfold runLoop
  constructor
  · have hb := loopGo_calls_le cfg model gateway MAX_ITERATIONS 0 0 0 [] none "" []
    omega
  · intro hvalid
    have h := loopGo_all_valid cfg model gateway MAX_ITERATIONS 0 0 [] none "" []
      (by intro i h1 h2; exact hvalid i (by omega))
    refine ⟨h.1, by rw [h.2.1]; omega, ?_⟩
    have := h.2.2
    norm_num [MAX_ITERATIONS] at this
    exact this

/-- A script that issues a valid search on every iteration. -/
def c2WitModel : Nat → ModelReply := fun i =>
  ⟨"step " ++ toString i, some ⟨"search_processes", "steel", 5, "", 0, ""⟩⟩

/-- A gateway that always finds one steel process. -/
def steelGateway : Nat → Action → GatewayResult := fun _ _ =>
  GatewayResult.searchResults [⟨"p1", "Steel production"⟩]

/-- Witness for C2 (amended): the unconditional 5-call bound holds on a
guard-tripping all-empty script, and five valid never-empty searches
exhaust the budget gracefully with the iteration-5 reply text. -/
theorem iteration_bound_graceful_termination_witness :
    (runLoop sampleCfg c2CexModel emptyGateway).gatewayCalls ≤ MAX_ITERATIONS ∧
    (runLoop sampleCfg c2WitModel steelGateway).gatewayCalls ≤ MAX_ITERATIONS ∧
    (runLoop sampleCfg c2WitModel steelGateway).state = LoopState.done ∧
    (runLoop sampleCfg c2WitModel steelGateway).gatewayCalls = MAX_ITERATIONS ∧
    (runLoop sampleCfg c2WitModel steelGateway).replyText = "step 4" := by
  have hcex := iteration_bound_graceful_termination sampleCfg c2CexModel emptyGateway
  have h := iteration_bound_graceful_termination sampleCfg c2WitModel steelGateway
  have hdone := h.2 (by
    intro i _
    refine ⟨by rfl, ?_⟩
    intro a q hpa hsi
    rw [show a = Action.searchProcesses "steel" 5 from (Option.some.inj hpa).symm] at hsi
    simp [steelGateway, searchInfo] at hsi)
  exact ⟨hcex.1, h.1, hdone.1, hdone.2.1, hdone.2.2⟩

/-- Claim C3: a non-empty search result resets the empty-search counter
to 0, so only consecutive empty searches trip the guard. For a turn
whose search outcomes are empty, non-empty, empty, followed by a reply
with no action: the counter follows 1, 0, 1, never reaches 2, and the
loop ends in `Done` (never `ForcedFailure`) with the final reply text. -/
theorem guard_reset_on_success (cfg : LoopConfig) (model : Nat → ModelReply)
    (gateway : Nat → Action → GatewayResult) (q0 q1 q2 : String)
    (l0 l1 l2 : Nat) (item : SearchItem)
    (h0 : parse_action (model 0).directive = some (Action.searchProcesses q0 l0))
    (h1 : parse_action (model 1).directive = some (Action.searchProcesses q1 l1))
    (h2 : parse_action (model 2).directive = some (Action.searchProcesses q2 l2))
    (h3 : parse_action (model 3).directive = none)
    (g0 : gateway 0 (Action.searchProcesses q0 l0) = GatewayResult.searchResults [])
    (g1 : gateway 1 (Action.searchProcesses q1 l1) = GatewayResult.searchResults [item])
    (g2 : gateway 2 (Action.searchProcesses q2 l2) = GatewayResult.searchResults []) :
    (runLoop cfg model gateway).emptyTrace = [1, 0, 1] ∧
    (runLoop cfg model gateway).state = LoopState.done ∧
    (runLoop cfg model gateway).replyText = (model 3).text := by
  unfold runLoop MAX_ITERATIONS
  simp only [loopGo, h0, g0, h1, g1, h2, g2, h3, searchInfo, MAX_EMPTY_SEARCHES]
  norm_num

/-- A script issuing searches that come back empty, non-empty, empty,
then a final reply without an action. -/
def resetWitModel : Nat → ModelReply := fun i =>
  if i = 0 then ⟨"t0", some ⟨"search_processes", "wheat", 5, "", 0, ""⟩⟩
  else if i = 1 then ⟨"t1", some ⟨"search_processes", "glass fiber", 5, "", 0, ""⟩⟩
  else if i = 2 then ⟨"t2", some ⟨"search_processes", "adamantium", 5, "", 0, ""⟩⟩
  else ⟨"final answer", none⟩

/-- A gateway that finds one hit on iteration 1 and nothing otherwise. -/
def resetWitGateway : Nat → Action → GatewayResult := fun i _ =>
  if i = 1 then GatewayResult.searchResults [⟨"p1", "Glass fiber mat production"⟩]
  else GatewayResult.searchResults []

/-- Witness for C3: the concrete empty / non-empty / empty run. -/
theorem guard_reset_on_success_witness :
    (runLoop sampleCfg resetWitModel resetWitGateway).emptyTrace = [1, 0, 1] ∧
    (runLoop sampleCfg resetWitModel resetWitGateway).state = LoopState.done ∧
    (runLoop sampleCfg resetWitModel resetWitGateway).replyText = "final answer" :=
  guard_reset_on_success sampleCfg resetWitModel resetWitGateway
    "wheat" "glass fiber" "adamantium" 5 5 5 ⟨"p1", "Glass fiber mat production"⟩
    (by rfl) (by rfl) (by rfl) (by rfl) (by rfl) (by rfl) (by rfl)

/-- Claim C4: a reply whose action directive is absent, or names a kind
outside the 4 known kinds, is treated identically to no action present:
the loop terminates in `Done` on that iteration with 0 gateway calls and
the reply text returned as-is (the embedding separates the reply text,
net of protocol-marker stripping, from the directive), with no error
surfaced: the entire turn result is the plain no-action `Done` record. -/
theorem unknown_action_kind_fails_open (cfg : LoopConfig)
    (model : Nat → ModelReply) (gateway : Nat → Action → GatewayResult)
    (h : (model 0).directive = none ∨
         ∃ d, (model 0).directive = some d ∧ d.kind ∉ knownActionKinds) :
    runLoop cfg model gateway =
      ⟨LoopState.done, (model 0).text, none, 0, [], []⟩ := by
  have hp : parse_action (model 0).directive = none := by
    rcases h with h | ⟨d, hd, hk⟩
    · rw [h]; rfl
    · rw [hd]
      simp only [knownActionKinds, List.mem_cons, List.not_mem_nil, or_false] at hk
      push_neg at hk
      obtain ⟨k1, k2, k3, k4⟩ := hk
      simp [parse_action, k1, k2, k3, k4]
  unfold runLoop MAX_ITERATIONS
  simp [loopGo, hp]

/-- A script whose first reply carries an action block with the
unrecognized kind `delete_database`. -/
def unknownKindWitModel : Nat → ModelReply := fun _ =>
  ⟨"Deleting is not something I do", some ⟨"delete_database", "", 0, "", 0, ""⟩⟩

/-- Witness for C4: the `delete_database` directive run terminates in
`Done` after 0 gateway calls with the reply text passed through. -/
theorem unknown_action_kind_fails_open_witness :
    runLoop sampleCfg unknownKindWitModel emptyGateway =
      ⟨LoopState.done, "Deleting is not something I do", none, 0, [], []⟩ :=
  unknown_action_kind_fails_open sampleCfg unknownKindWitModel emptyGateway
    (Or.inr ⟨⟨"delete_database", "", 0, "", 0, ""⟩, rfl, by decide⟩)

lemma mentions_trans {a b c : String} (h1 : mentions a b) (h2 : mentions b c) :
    mentions a c := by
  obtain ⟨p1, q1, rfl⟩ := h1
  obtain ⟨p2, q2, rfl⟩ := h2
  exact ⟨p1 ++ p2, q2 ++ q1, by simp [String.append_assoc]⟩

lemma mentions_of_suffix (a b : String) : mentions (a ++ b) b :=
  ⟨a, "", by rw [String.append_empty]⟩

lemma bfm_mentions_query (q db : String) (st : List String) (recs : List DbRec)
    (n : Nat) : mentions (build_failure_message q db st recs n) q :=
  ⟨"I could not find ", _, rfl⟩

lemma bfm_mentions_db (q db : String) (st : List String) (recs : List DbRec)
    (n : Nat) : mentions (build_failure_message q db st recs n) db := by
  unfold build_failure_message
  apply mentions_append_left
  apply mentions_append_left
  apply mentions_append_left
  exact ⟨"", _, rfl⟩

lemma bfm_mentions_strength {q db s : String} {st : List String}
    {recs : List DbRec} {n : Nat} (hs : s ∈ st) :
    mentions (build_failure_message q db st recs n) s := by
  unfold build_failure_message
  apply mentions_append_left
  apply mentions_append_left
  apply mentions_append_left
  apply mentions_append_left
  apply mentions_append_left
  apply mentions_append_left
  apply mentions_append_left
  apply mentions_append_left
  apply mentions_append_left
  apply mentions_append_right
  refine mentions_trans (concatList_mentions (List.mem_map_of_mem _ hs)) ?_
  exact ⟨"- ", "\n", rfl⟩

lemma bfm_mentions_rec_name {q db : String} {st : List String}
    {recs : List DbRec} {r : DbRec} {n : Nat} (hr : r ∈ recs) :
    mentions (build_failure_message q db st recs n) r.name := by
  unfold build_failure_message
  apply mentions_append_left
  apply mentions_append_left
  apply mentions_append_left
  apply mentions_append_left
  apply mentions_append_left
  apply mentions_append_left
  apply mentions_append_left
  apply mentions_append_left
  apply mentions_append_left
  apply mentions_append_left
  apply mentions_append_left
  apply mentions_append_right
  refine mentions_trans (concatList_mentions (List.mem_map_of_mem _ hr)) ?_
  exact ⟨"-> ", _, rfl⟩

lemma bfm_mentions_invite (q db : String) (st : List String) (recs : List DbRec)
    (n : Nat) :
    mentions (build_failure_message q db st recs n)
      "\nWould you like me to switch databases for you?" := by
  unfold build_failure_message
  apply mentions_append_left
  apply mentions_append_left
  apply mentions_append_left
  apply mentions_append_left
  apply mentions_append_left
  apply mentions_append_left
  apply mentions_append_left
  apply mentions_append_left
  apply mentions_append_left
  apply mentions_append_left
  apply mentions_append_left
  exact mentions_of_suffix _ _

lemma suggest_databases_length (q db : String) (guidance : String → DbGuidance)
    (h1 : 1 ≤ ((guidance db).alternatives).length)
    (h3 : ((guidance db).alternatives).length ≤ 3) :
    1 ≤ (suggest_databases q db guidance).length ∧
    (suggest_databases q db guidance).length ≤ 3 := by
  unfold suggest_databases
  repeat' split
  all_goals simp_all

lemma loopGo_forcedFailure_payload (cfg : LoopConfig) (model : Nat → ModelReply)
    (gateway : Nat → Action → GatewayResult) :
    ∀ fuel it ec calls trace lastA lastT tr, ec ≤ 1 →
      (loopGo cfg model gateway fuel it ec calls trace lastA lastT tr).state =
        LoopState.forcedFailure →
      ∃ q,
        (loopGo cfg model gateway fuel it ec calls trace lastA lastT tr).action =
          some (ActionPayload.searchFailed q 2 (suggest_databases q cfg.dbId cfg.guidance)) ∧
        (loopGo cfg model gateway fuel it ec calls trace lastA lastT tr).replyText =
          build_failure_message q cfg.dbName (cfg.guidance cfg.dbId).strengths
            (suggest_databases q cfg.dbId cfg.guidance) 2 := by
  intro fuel
  induction fuel with
  | zero =>
      intro it ec calls trace lastA lastT tr _ hst
      simp [loopGo] at hst
  | succ n ih =>
      intro it ec calls trace lastA lastT tr hec hst
      cases hpa : parse_action (model it).directive with
      | none =>
          rw [show loopGo cfg model gateway (n + 1) it ec calls trace lastA lastT tr =
            ⟨LoopState.done, (model it).text, lastA, calls, trace.reverse, tr⟩ from by
              simp only [loopGo, hpa]] at hst
          simp at hst
      | some a =>
          cases hsi : searchInfo a (gateway it a) with
          | none =>
              have heq : loopGo cfg model gateway (n + 1) it ec calls trace lastA lastT tr
                  = loopGo cfg model gateway n (it + 1) ec (calls + 1) trace
                      (some (ActionPayload.executed a (gateway it a))) (model it).text
                      (tr ++ [actionResultMsg a (gateway it a)]) := by
                simp only [loopGo, hpa, hsi]
              rw [heq] at hst ⊢
              exact ih (it + 1) ec (calls + 1) trace _ _ _ hec hst
          | some p =>
              obtain ⟨q, len⟩ := p
              by_cases hl : len = 0
              · subst hl
                by_cases hg : MAX_EMPTY_SEARCHES ≤ ec + 1
                · have hec1 : ec = 1 := by
                    simp [MAX_EMPTY_SEARCHES] at hg
                    omega
                  subst hec1
                  have heq : loopGo cfg model gateway (n + 1) it 1 calls trace lastA lastT tr
                      = ⟨LoopState.forcedFailure,
                          build_failure_message q cfg.dbName (cfg.guidance cfg.dbId).strengths
                            (suggest_databases q cfg.dbId cfg.guidance) 2,
                          some (ActionPayload.searchFailed q 2
                            (suggest_databases q cfg.dbId cfg.guidance)),
                          calls + 1, (2 :: trace).reverse, tr⟩ := by
                    simp only [loopGo, hpa, hsi]
                    norm_num [MAX_EMPTY_SEARCHES]
                  rw [heq]
                  exact ⟨q, rfl, rfl⟩
                · have heq : loopGo cfg model gateway (n + 1) it ec calls trace lastA lastT tr
                      = loopGo cfg model gateway n (it + 1) (ec + 1) (calls + 1)
                          ((ec + 1) :: trace)
                          (some (ActionPayload.executed a (gateway it a))) (model it).text
                          (tr ++ [actionResultMsg a (gateway it a)]) := by
                    simp only [loopGo, hpa, hsi, eq_self_iff_true, ite_true, if_neg hg]
                  rw [heq] at hst ⊢
                  have : ec + 1 ≤ 1 := by
                    simp [MAX_EMPTY_SEARCHES] at hg
                    omega
                  exact ih (it + 1) (ec + 1) (calls + 1) _ _ _ _ this hst
              · have heq : loopGo cfg model gateway (n + 1) it ec calls trace lastA lastT tr
                    = loopGo cfg model gateway n (it + 1) 0 (calls + 1) (0 :: trace)
                        (some (ActionPayload.executed a (gateway it a))) (model it).text
                        (tr ++ [actionResultMsg a (gateway it a)]) := by
                  simp only [loopGo, hpa, hsi, if_neg hl]
                  norm_num [MAX_EMPTY_SEARCHES]
                rw [heq] at hst ⊢
                exact ih (it + 1) 0 (calls + 1) _ _ _ _ (by omega) hst

/-- Claim C5: whenever the loop ends in `ForcedFailure`, the returned
action carries the `search_failed` sentinel with the failed query, the
attempt count (2) and the suggestion list from the keyword heuristic,
and the user-facing message is the structured failure message: it names
the failed query and the active database, lists the database strengths
declared in the Database Guidance knowledge base, lists the 1-3
recommended alternative databases, and invites the user to request a
switch — never a bare error string. (The 1-3 bound uses the stated
knowledge-base shape: every guidance entry declares 1-3 alternatives.) -/
theorem forced_failure_is_actionable (cfg : LoopConfig) (model : Nat → ModelReply)
    (gateway : Nat → Action → GatewayResult)
    (halt : ∀ db, 1 ≤ ((cfg.guidance db).alternatives).length ∧
      ((cfg.guidance db).alternatives).length ≤ 3)
    (hff : (runLoop cfg model gateway).state = LoopState.forcedFailure) :
    ∃ q,
      (runLoop cfg model gateway).action =
        some (ActionPayload.searchFailed q 2 (suggest_databases q cfg.dbId cfg.guidance)) ∧
      (runLoop cfg model gateway).replyText =
        build_failure_message q cfg.dbName (cfg.guidance cfg.dbId).strengths
          (suggest_databases q cfg.dbId cfg.guidance) 2 ∧
      mentions (runLoop cfg model gateway).replyText q ∧
      mentions (runLoop cfg model gateway).replyText cfg.dbName ∧
      (∀ s ∈ (cfg.guidance cfg.dbId).strengths,
        mentions (runLoop cfg model gateway).replyText s) ∧
      (∀ r ∈ suggest_databases q cfg.dbId cfg.guidance,
        mentions (runLoop cfg model gateway).replyText r.name) ∧
      mentions (runLoop cfg model gateway).replyText
        "\nWould you like me to switch databases for you?" ∧
      1 ≤ (suggest_databases q cfg.dbId cfg.guidance).length ∧
      (suggest_databases q cfg.dbId cfg.guidance).length ≤ 3 := by
  unfold runLoop at hff ⊢
  obtain ⟨q, ha, ht⟩ := loopGo_forcedFailure_payload cfg model gateway
    MAX_ITERATIONS 0 0 0 [] none "" [] (by omega) hff
  refine ⟨q, ha, ht, ?_, ?_, ?_, ?_, ?_, ?_, ?_⟩
  · rw [ht]; exact bfm_mentions_query _ _ _ _ _
  · rw [ht]; exact bfm_mentions_db _ _ _ _ _
  · intro s hs; rw [ht]; exact bfm_mentions_strength hs
  · intro r hr; rw [ht]; exact bfm_mentions_rec_name hr
  · rw [ht]; exact bfm_mentions_invite _ _ _ _ _
  · exact (suggest_databases_length q cfg.dbId cfg.guidance (halt cfg.dbId).1
      (halt cfg.dbId).2).1
  · exact (suggest_databases_length q cfg.dbId cfg.guidance (halt cfg.dbId).1
      (halt cfg.dbId).2).2

/-- Witness for C5: the concrete two-empty-searches run ends in
`ForcedFailure` with the full structured payload and message. -/
theorem forced_failure_is_actionable_witness :
    ∃ q,
      (runLoop sampleCfg guardWitModel emptyGateway).action =
        some (ActionPayload.searchFailed q 2
          (suggest_databases q sampleCfg.dbId sampleCfg.guidance)) ∧
      (runLoop sampleCfg guardWitModel emptyGateway).replyText =
        build_failure_message q sampleCfg.dbName (sampleCfg.guidance sampleCfg.dbId).strengths
          (suggest_databases q sampleCfg.dbId sampleCfg.guidance) 2 ∧
      mentions (runLoop sampleCfg guardWitModel emptyGateway).replyText q ∧
      mentions (runLoop sampleCfg guardWitModel emptyGateway).replyText sampleCfg.dbName ∧
      (∀ s ∈ (sampleCfg.guidance sampleCfg.dbId).strengths,
        mentions (runLoop sampleCfg guardWitModel emptyGateway).replyText s) ∧
      (∀ r ∈ suggest_databases q sampleCfg.dbId sampleCfg.guidance,
        mentions (runLoop sampleCfg guardWitModel emptyGateway).replyText r.name) ∧
      mentions (runLoop sampleCfg guardWitModel emptyGateway).replyText
        "\nWould you like me to switch databases for you?" ∧
      1 ≤ (suggest_databases q sampleCfg.dbId sampleCfg.guidance).length ∧
      (suggest_databases q sampleCfg.dbId sampleCfg.guidance).length ≤ 3 :=
  forced_failure_is_actionable sampleCfg guardWitModel emptyGateway
    (by intro db; exact ⟨by simp [sampleCfg, sampleGuidance], by simp [sampleCfg, sampleGuidance]⟩)
    (by rfl)

lemma mentions_pre (a b : String) : mentions (a ++ b) a :=
  ⟨"", b, by rw [String.empty_append]⟩

lemma loopGo_directive_agnostic (cfg : LoopConfig) (m1 m2 : Nat → ModelReply)
    (gateway : Nat → Action → GatewayResult)
    (h : ∀ i, (m1 i).directive = (m2 i).directive) :
    ∀ fuel it ec calls trace lastA t1 t2 tr,
      ((loopGo cfg m1 gateway fuel it ec calls trace lastA t1 tr).state =
        (loopGo cfg m2 gateway fuel it ec calls trace lastA t2 tr).state) ∧
      ((loopGo cfg m1 gateway fuel it ec calls trace lastA t1 tr).action =
        (loopGo cfg m2 gateway fuel it ec calls trace lastA t2 tr).action) ∧
      ((loopGo cfg m1 gateway fuel it ec calls trace lastA t1 tr).gatewayCalls =
        (loopGo cfg m2 gateway fuel it ec calls trace lastA t2 tr).gatewayCalls) ∧
      ((loopGo cfg m1 gateway fuel it ec calls trace lastA t1 tr).emptyTrace =
        (loopGo cfg m2 gateway fuel it ec calls trace lastA t2 tr).emptyTrace) := by
  intro fuel
  induction fuel with
  | zero => intro it ec calls trace lastA t1 t2 tr; simp [loopGo]
  | succ n ih =>
      intro it ec calls trace lastA t1 t2 tr
      cases hpa : parse_action (m2 it).directive with
      | none =>
          have hpa1 : parse_action (m1 it).directive = none := by rw [h it, hpa]
          have e1 : loopGo cfg m1 gateway (n + 1) it ec calls trace lastA t1 tr =
              ⟨LoopState.done, (m1 it).text, lastA, calls, trace.reverse, tr⟩ := by
            simp only [loopGo, hpa1]
          have e2 : loopGo cfg m2 gateway (n + 1) it ec calls trace lastA t2 tr =
              ⟨LoopState.done, (m2 it).text, lastA, calls, trace.reverse, tr⟩ := by
            simp only [loopGo, hpa]
          rw [e1, e2]
          exact ⟨rfl, rfl, rfl, rfl⟩
      | some a =>
          have hpa1 : parse_action (m1 it).directive = some a := by rw [h it, hpa]
          cases hsi : searchInfo a (gateway it a) with
          | none =>
              have e1 : loopGo cfg m1 gateway (n + 1) it ec calls trace lastA t1 tr =
                  loopGo cfg m1 gateway n (it + 1) ec (calls + 1) trace
                    (some (ActionPayload.executed a (gateway it a))) (m1 it).text
                    (tr ++ [actionResultMsg a (gateway it a)]) := by
                simp only [loopGo, hpa1, hsi]
              have e2 : loopGo cfg m2 gateway (n + 1) it ec calls trace lastA t2 tr =
                  loopGo cfg m2 gateway n (it + 1) ec (calls + 1) trace
                    (some (ActionPayload.executed a (gateway it a))) (m2 it).text
                    (tr ++ [actionResultMsg a (gateway it a)]) := by
                simp only [loopGo, hpa, hsi]
              rw [e1, e2]
              exact ih (it + 1) ec (calls + 1) trace _ _ _ _
          | some p =>
              obtain ⟨q, len⟩ := p
              by_cases hl : len = 0
              · subst hl
                by_cases hg : MAX_EMPTY_SEARCHES ≤ ec + 1
                · have e1 : loopGo cfg m1 gateway (n + 1) it ec calls trace lastA t1 tr =
                      ⟨LoopState.forcedFailure,
                        build_failure_message q cfg.dbName (cfg.guidance cfg.dbId).strengths
                          (suggest_databases q cfg.dbId cfg.guidance) (ec + 1),
                        some (ActionPayload.searchFailed q (ec + 1)
                          (suggest_databases q cfg.dbId cfg.guidance)),
                        calls + 1, ((ec + 1) :: trace).reverse, tr⟩ := by
                    simp only [loopGo, hpa1, hsi, eq_self_iff_true, ite_true, if_pos hg]
                  have e2 : loopGo cfg m2 gateway (n + 1) it ec calls trace lastA t2 tr =
                      ⟨LoopState.forcedFailure,
                        build_failure_message q cfg.dbName (cfg.guidance cfg.dbId).strengths
                          (suggest_databases q cfg.dbId cfg.guidance) (ec + 1),
                        some (ActionPayload.searchFailed q (ec + 1)
                          (suggest_databases q cfg.dbId cfg.guidance)),
                        calls + 1, ((ec + 1) :: trace).reverse, tr⟩ := by
                    simp only [loopGo, hpa, hsi, eq_self_iff_true, ite_true, if_pos hg]
                  rw [e1, e2]
                  exact ⟨rfl, rfl, rfl, rfl⟩
                · have e1 : loopGo cfg m1 gateway (n + 1) it ec calls trace lastA t1 tr =
                      loopGo cfg m1 gateway n (it + 1) (ec + 1) (calls + 1) ((ec + 1) :: trace)
                        (some (ActionPayload.executed a (gateway it a))) (m1 it).text
                        (tr ++ [actionResultMsg a (gateway it a)]) := by
                    simp only [loopGo, hpa1, hsi, eq_self_iff_true, ite_true, if_neg hg]
                  have e2 : loopGo cfg m2 gateway (n + 1) it ec calls trace lastA t2 tr =
                      loopGo cfg m2 gateway n (it + 1) (ec + 1) (calls + 1) ((ec + 1) :: trace)
                        (some (ActionPayload.executed a (gateway it a))) (m2 it).text
                        (tr ++ [actionResultMsg a (gateway it a)]) := by
                    simp only [loopGo, hpa, hsi, eq_self_iff_true, ite_true, if_neg hg]
                  rw [e1, e2]
                  exact ih (it + 1) (ec + 1) (calls + 1) _ _ _ _ _
              · have hg0 : ¬ (MAX_EMPTY_SEARCHES ≤ 0) := by simp [MAX_EMPTY_SEARCHES]
                have e1 : loopGo cfg m1 gateway (n + 1) it ec calls trace lastA t1 tr =
                    loopGo cfg m1 gateway n (it + 1) 0 (calls + 1) (0 :: trace)
                      (some (ActionPayload.executed a (gateway it a))) (m1 it).text
                      (tr ++ [actionResultMsg a (gateway it a)]) := by
                  simp only [loopGo, hpa1, hsi, if_neg hl, if_neg hg0]
                have e2 : loopGo cfg m2 gateway (n + 1) it ec calls trace lastA t2 tr =
                    loopGo cfg m2 gateway n (it + 1) 0 (calls + 1) (0 :: trace)
                      (some (ActionPayload.executed a (gateway it a))) (m2 it).text
                      (tr ++ [actionResultMsg a (gateway it a)]) := by
                  simp only [loopGo, hpa, hsi, if_neg hl, if_neg hg0]
                rw [e1, e2]
                exact ih (it + 1) 0 (calls + 1) _ _ _ _ _

/-- Claim C6: for every scripted model whose action directives do not
depend on the system prompt (the scripted model/gateway sequence is
identical under both modes), running the turn under `mode=auto` and
`mode=interactive` produces the same termination state, the same
structured action payload, the same number of gateway calls and the
same empty-search trace — only the natural-language reply text may
differ — and both mode prompts contain the identical hallucination-guard
rules, so mode never weakens the guard. -/
theorem mode_noninterference (cfg : LoopConfig) (kbText : String)
    (model : String → Nat → ModelReply)
    (gateway : Nat → Action → GatewayResult)
    (hscript : ∀ p1 p2 i, (model p1 i).directive = (model p2 i).directive) :
    ((runTurnMode cfg Mode.auto kbText model gateway).state =
      (runTurnMode cfg Mode.interactive kbText model gateway).state) ∧
    ((runTurnMode cfg Mode.auto kbText model gateway).action =
      (runTurnMode cfg Mode.interactive kbText model gateway).action) ∧
    ((runTurnMode cfg Mode.auto kbText model gateway).gatewayCalls =
      (runTurnMode cfg Mode.interactive kbText model gateway).gatewayCalls) ∧
    ((runTurnMode cfg Mode.auto kbText model gateway).emptyTrace =
      (runTurnMode cfg Mode.interactive kbText model gateway).emptyTrace) ∧
    mentions (buildPrompt Mode.auto cfg.dbName kbText) guardRulesText ∧
    mentions (buildPrompt Mode.interactive cfg.dbName kbText) guardRulesText := by
  have hlk := loopGo_directive_agnostic cfg
    (model (buildPrompt Mode.auto cfg.dbName kbText))
    (model (buildPrompt Mode.interactive cfg.dbName kbText)) gateway
    (fun i => hscript _ _ i) MAX_ITERATIONS 0 0 0 [] none "" "" []
  refine ⟨hlk.1, hlk.2.1, hlk.2.2.1, hlk.2.2.2, ?_, ?_⟩
  · unfold buildPrompt
    apply mentions_append_left
    apply mentions_append_left
    exact mentions_pre _ _
  · unfold buildPrompt
    apply mentions_append_left
    apply mentions_append_left
    exact mentions_pre _ _

/-- A scripted model that echoes its system prompt as reply text and
never issues an action: its directives are prompt-insensitive while its
reply text is not. -/
def promptEchoModel : String → Nat → ModelReply := fun p _ => ⟨p, none⟩

/-- Witness for C6: a concrete prompt-echoing script run under both
modes yields identical structured outcomes, and both prompts carry the
guard rules. -/
theorem mode_noninterference_witness :
    ((runTurnMode sampleCfg Mode.auto "kb" promptEchoModel emptyGateway).state =
      (runTurnMode sampleCfg Mode.interactive "kb" promptEchoModel emptyGateway).state) ∧
    ((runTurnMode sampleCfg Mode.auto "kb" promptEchoModel emptyGateway).action =
      (runTurnMode sampleCfg Mode.interactive "kb" promptEchoModel emptyGateway).action) ∧
    ((runTurnMode sampleCfg Mode.auto "kb" promptEchoModel emptyGateway).gatewayCalls =
      (runTurnMode sampleCfg Mode.interactive "kb" promptEchoModel emptyGateway).gatewayCalls) ∧
    ((runTurnMode sampleCfg Mode.auto "kb" promptEchoModel emptyGateway).emptyTrace =
      (runTurnMode sampleCfg Mode.interactive "kb" promptEchoModel emptyGateway).emptyTrace) ∧
    mentions (buildPrompt Mode.auto sampleCfg.dbName "kb") guardRulesText ∧
    mentions (buildPrompt Mode.interactive sampleCfg.dbName "kb") guardRulesText :=
  mode_noninterference sampleCfg "kb" promptEchoModel emptyGateway
    (fun _ _ _ => rfl)

/-- Fold a sequence of method selections (id, timestamp) through
`applyMethodSelection`, in order. -/
def applySelections (ctx : ConversationContext)
    (sels : List (Option String × Nat)) : ConversationContext :=
  sels.foldl (fun c p => applyMethodSelection c p.1 p.2) ctx

lemma applySelections_mode_last (ctx : ConversationContext) :
    ∀ sels (mid : Option String) (t : Nat), sels.getLast? = some (mid, t) →
      (applySelections ctx sels).methodSelectionMode =
        (match mid with | none => "auto" | some _ => "manual") := by
  intro sels
  induction sels generalizing ctx with
  | nil => intro mid t h; simp at h
  | cons p rest ih =>
      intro mid t h
      cases rest with
      | nil =>
          simp only [List.getLast?_singleton, Option.some.injEq] at h
          subst h
          simp [applySelections, applyMethodSelection]
      | cons p2 rest2 =>
          rw [List.getLast?_cons_cons] at h
          have := ih (applyMethodSelection ctx p.1 p.2) mid t h
          simpa [applySelections] using this

/-- Claim C7: after any non-empty sequence of `applyMethodSelection`
calls, `methodSelectionMode` is `manual` if and only if the most
recently supplied method id was non-null. In particular selecting
`recipe_2016` sets the mode to `manual` and a subsequent null selection
sets it back to `auto`; the frontend twin `handleMethodChange` derives
the same mode from nullability. -/
theorem method_mode_derivation (ctx : ConversationContext)
    (sels : List (Option String × Nat)) (mid : Option String) (t : Nat)
    (hlast : sels.getLast? = some (mid, t)) :
    ((applySelections ctx sels).methodSelectionMode = "manual" ↔ mid.isSome) ∧
    (∀ c t1, (applyMethodSelection c (some "recipe_2016") t1).methodSelectionMode
      = "manual") ∧
    (∀ c t1 t2, (applyMethodSelection (applyMethodSelection c (some "recipe_2016") t1)
      none t2).methodSelectionMode = "auto") ∧
    (∀ s m, (handleMethodChange s m).2 = "manual" ↔ m.isSome) := by
  refine ⟨?_, fun c t1 => rfl, fun c t1 t2 => rfl, ?_⟩
  · rw [applySelections_mode_last ctx sels mid t hlast]
    cases mid <;> simp
  · intro s m
    cases m <;> simp [handleMethodChange]

/-- A fresh sample conversation context: ELCD selected, no method, auto
mode, empty histories. -/
def sampleCtx : ConversationContext :=
  ⟨"conv-1", "elcd", none, "auto", Mode.auto, [], [], [], 0, 0⟩

/-- Witness for C7: the concrete `recipe_2016`-then-null sequence ends
in `auto` mode, matching the nullability of the last selection. -/
theorem method_mode_derivation_witness :
    ((applySelections sampleCtx [(some "recipe_2016", 1), (none, 2)]).methodSelectionMode
      = "manual" ↔ (none : Option String).isSome) ∧
    (∀ c t1, (applyMethodSelection c (some "recipe_2016") t1).methodSelectionMode
      = "manual") ∧
    (∀ c t1 t2, (applyMethodSelection (applyMethodSelection c (some "recipe_2016") t1)
      none t2).methodSelectionMode = "auto") ∧
    (∀ s m, (handleMethodChange s m).2 = "manual" ↔ m.isSome) :=
  method_mode_derivation sampleCtx [(some "recipe_2016", 1), (none, 2)] none 2 (by rfl)

/-- Claim C8: `applyDatabaseSelection` is a no-op when the new database
equals the current one, and otherwise appends exactly one history entry
and mutates `databaseId` only — `methodId`, `methodSelectionMode`,
`mode` and `messages` are untouched. Hence selecting `elcd`,
`agribalyse`, `elcd` across three turns starting from an `elcd` context
yields a `databaseHistory` of length 2 with the correct from/to pairs
and non-decreasing timestamps. -/
theorem database_selection_history (ctx : ConversationContext) (d : String)
    (t t0 t1 t2 : Nat) (hinit : ctx.databaseId = "elcd")
    (hhist : ctx.databaseHistory = []) (hmono : t1 ≤ t2) (hne : d ≠ ctx.databaseId) :
    (applyDatabaseSelection ctx ctx.databaseId t = ctx) ∧
    ((applyDatabaseSelection ctx d t).databaseHistory =
      ctx.databaseHistory ++ [⟨ctx.databaseId, d, t⟩] ∧
     (applyDatabaseSelection ctx d t).databaseId = d ∧
     (applyDatabaseSelection ctx d t).methodId = ctx.methodId ∧
     (applyDatabaseSelection ctx d t).methodSelectionMode = ctx.methodSelectionMode ∧
     (applyDatabaseSelection ctx d t).mode = ctx.mode ∧
     (applyDatabaseSelection ctx d t).messages = ctx.messages) ∧
    ((applyDatabaseSelection (applyDatabaseSelection (applyDatabaseSelection ctx
        "elcd" t0) "agribalyse" t1) "elcd" t2).databaseHistory =
      [⟨"elcd", "agribalyse", t1⟩, ⟨"agribalyse", "elcd", t2⟩] ∧
     (applyDatabaseSelection (applyDatabaseSelection (applyDatabaseSelection ctx
        "elcd" t0) "agribalyse" t1) "elcd" t2).databaseHistory.length = 2 ∧
     List.Chain' (fun e1 e2 => e1.timestamp ≤ e2.timestamp)
       (applyDatabaseSelection (applyDatabaseSelection (applyDatabaseSelection ctx
          "elcd" t0) "agribalyse" t1) "elcd" t2).databaseHistory ∧
     (applyDatabaseSelection (applyDatabaseSelection (applyDatabaseSelection ctx
        "elcd" t0) "agribalyse" t1) "elcd" t2).methodId = ctx.methodId ∧
     (applyDatabaseSelection (applyDatabaseSelection (applyDatabaseSelection ctx
        "elcd" t0) "agribalyse" t1) "elcd" t2).methodSelectionMode =
       ctx.methodSelectionMode ∧
     (applyDatabaseSelection (applyDatabaseSelection (applyDatabaseSelection ctx
        "elcd" t0) "agribalyse" t1) "elcd" t2).mode = ctx.mode) := by
  refine ⟨by simp [applyDatabaseSelection], ?_, ?_⟩
  · simp [applyDatabaseSelection, if_neg hne]
  · have e1 : applyDatabaseSelection ctx "elcd" t0 = ctx := by
      simp [applyDatabaseSelection, hinit]
    rw [e1]
    have hne1 : ¬ ("agribalyse" = ctx.databaseId) := by rw [hinit]; decide
    have hne2 : ¬ ("elcd" = (applyDatabaseSelection ctx "agribalyse" t1).databaseId) := by
      simp [applyDatabaseSelection, if_neg hne1]
    simp [applyDatabaseSelection, if_neg hne1, if_neg hne2, hinit, hhist, hmono]

/-- Witness for C8: the concrete elcd, agribalyse, elcd switching
scenario from the fresh sample context with timestamps 1 and 2. -/
theorem database_selection_history_witness :
    (applyDatabaseSelection sampleCtx sampleCtx.databaseId 0 = sampleCtx) ∧
    ((applyDatabaseSelection sampleCtx "agribalyse" 0).databaseHistory =
      sampleCtx.databaseHistory ++ [⟨sampleCtx.databaseId, "agribalyse", 0⟩] ∧
     (applyDatabaseSelection sampleCtx "agribalyse" 0).databaseId = "agribalyse" ∧
     (applyDatabaseSelection sampleCtx "agribalyse" 0).methodId = sampleCtx.methodId ∧
     (applyDatabaseSelection sampleCtx "agribalyse" 0).methodSelectionMode =
       sampleCtx.methodSelectionMode ∧
     (applyDatabaseSelection sampleCtx "agribalyse" 0).mode = sampleCtx.mode ∧
     (applyDatabaseSelection sampleCtx "agribalyse" 0).messages = sampleCtx.messages) ∧
    ((applyDatabaseSelection (applyDatabaseSelection (applyDatabaseSelection sampleCtx
        "elcd" 0) "agribalyse" 1) "elcd" 2).databaseHistory =
      [⟨"elcd", "agribalyse", 1⟩, ⟨"agribalyse", "elcd", 2⟩] ∧
     (applyDatabaseSelection (applyDatabaseSelection (applyDatabaseSelection sampleCtx
        "elcd" 0) "agribalyse" 1) "elcd" 2).databaseHistory.length = 2 ∧
     List.Chain' (fun e1 e2 => e1.timestamp ≤ e2.timestamp)
       (applyDatabaseSelection (applyDatabaseSelection (applyDatabaseSelection sampleCtx
          "elcd" 0) "agribalyse" 1) "elcd" 2).databaseHistory ∧
     (applyDatabaseSelection (applyDatabaseSelection (applyDatabaseSelection sampleCtx
        "elcd" 0) "agribalyse" 1) "elcd" 2).methodId = sampleCtx.methodId ∧
     (applyDatabaseSelection (applyDatabaseSelection (applyDatabaseSelection sampleCtx
        "elcd" 0) "agribalyse" 1) "elcd" 2).methodSelectionMode =
       sampleCtx.methodSelectionMode ∧
     (applyDatabaseSelection (applyDatabaseSelection (applyDatabaseSelection sampleCtx
        "elcd" 0) "agribalyse" 1) "elcd" 2).mode = sampleCtx.mode) :=
  database_selection_history sampleCtx "agribalyse" 0 0 1 2 (by rfl) (by rfl)
    (by omega) (by decide)

/-- Claim C9: if the selected database id is unknown to the catalog or
marked unavailable, `runTurn` fails with `InvalidDatabase` before the
loop starts: the result does not depend on the model or the gateway (no
model call, no gateway call can influence it) and the conversation
context — its transcript included — is returned unchanged. -/
theorem invalid_database_precheck (catalog : String → Option DbCatalogEntry)
    (guidance : String → DbGuidance) (kbText : String) (ctx : ConversationContext)
    (msg : String) (model modelB : String → Nat → ModelReply)
    (gateway gatewayB : Nat → Action → GatewayResult)
    (h : catalog ctx.databaseId = none ∨
         ∃ info, catalog ctx.databaseId = some info ∧ info.available = false) :
    (runTurn catalog guidance kbText ctx msg model gateway).1 =
      Except.error TurnError.invalidDatabase ∧
    (runTurn catalog guidance kbText ctx msg model gateway).2 = ctx ∧
    runTurn catalog guidance kbText ctx msg model gateway =
      runTurn catalog guidance kbText ctx msg modelB gatewayB := by
  rcases h with h | ⟨info, hi, hav⟩
  · simp [runTurn, h]
  · simp [runTurn, hi, hav]

/-- A catalog in which ELCD exists but is offline and every other id is
unknown. -/
def offlineCatalog : String → Option DbCatalogEntry := fun dbid =>
  if dbid = "elcd" then some ⟨"ELCD", false⟩ else none

/-- Witness for C9: a turn against the offline ELCD catalog fails with
`InvalidDatabase`, leaves the context unchanged, and two entirely
different model/gateway scripts produce the identical result. -/
theorem invalid_database_precheck_witness :
    (runTurn offlineCatalog sampleGuidance "kb" sampleCtx "hello" promptEchoModel
      emptyGateway).1 = Except.error TurnError.invalidDatabase ∧
    (runTurn offlineCatalog sampleGuidance "kb" sampleCtx "hello" promptEchoModel
      emptyGateway).2 = sampleCtx ∧
    runTurn offlineCatalog sampleGuidance "kb" sampleCtx "hello" promptEchoModel
      emptyGateway =
    runTurn offlineCatalog sampleGuidance "kb" sampleCtx "hello"
      (fun _ _ => ⟨"other", none⟩) steelGateway :=
  invalid_database_precheck offlineCatalog sampleGuidance "kb" sampleCtx "hello"
    promptEchoModel (fun _ _ => ⟨"other", none⟩) emptyGateway steelGateway
    (Or.inr ⟨⟨"ELCD", false⟩, by rfl, by rfl⟩)

/-- Claim C10: the frontend results-panel list is append-only and
guarded. For every chat response, the new `lciaResults` is the old list
plus at most one appended entry; an entry is appended exactly when the
returned action is present with a non-null `results` field and its type
is `calculate_lcia` or `calculate_lcia_ps`; responses carrying any other
action type (search results, `search_failed`), a null `results` field,
or no action at all leave the list unchanged — entries are never
removed. -/
theorem lcia_results_append_guard (l : List LciaEntry) (data : ChatResponse)
    (now : String) :
    (∃ suffix, updateLciaResults l data now = l ++ suffix ∧ suffix.length ≤ 1) ∧
    ((∃ a r, data.action = some a ∧ a.results = some r ∧
        (a.type = "calculate_lcia" ∨ a.type = "calculate_lcia_ps")) ↔
      updateLciaResults l data now ≠ l) ∧
    (∀ a, data.action = some a → a.results = none → updateLciaResults l data now = l) ∧
    (∀ a r, data.action = some a → a.results = some r →
      ¬ (a.type = "calculate_lcia") → ¬ (a.type = "calculate_lcia_ps") →
      updateLciaResults l data now = l) ∧
    (data.action = none → updateLciaResults l data now = l) := by
  cases hact : data.action with
  | none =>
      refine ⟨⟨[], by simp [updateLciaResults, hact], by simp⟩, ?_, ?_, ?_, ?_⟩
      · simp [updateLciaResults, hact]
      · intro a ha; cases ha
      · intro a r ha; cases ha
      · intro _; simp [updateLciaResults, hact]
  | some a =>
      cases hres : a.results with
      | none =>
          refine ⟨⟨[], by simp [updateLciaResults, hact, hres], by simp⟩, ?_, ?_, ?_, ?_⟩
          · constructor
            · rintro ⟨a2, r2, ha2, hr2, -⟩
              cases ha2
              rw [hres] at hr2
              cases hr2
            · intro hne
              exact absurd (by simp [updateLciaResults, hact, hres]) hne
          · intro a2 ha2 _; simp [updateLciaResults, hact, hres]
          · intro a2 r2 ha2 hr2 h1 h2
            cases ha2
            rw [hres] at hr2
            cases hr2
          · intro hnone; cases hnone
      | some r =>
          by_cases hty : a.type = "calculate_lcia" ∨ a.type = "calculate_lcia_ps"
          · have heq : updateLciaResults l data now = l ++ [⟨r, now, r.goal_scope⟩] := by
              simp [updateLciaResults, hact, hres, hty]
            refine ⟨⟨[⟨r, now, r.goal_scope⟩], heq, by simp⟩, ?_, ?_, ?_, ?_⟩
            · constructor
              · intro _
                rw [heq]
                intro habs
                have := congrArg List.length habs
                simp at this
              · intro _; exact ⟨a, r, rfl, hres, hty⟩
            · intro a2 ha2 hr2
              cases ha2
              rw [hres] at hr2
              cases hr2
            · intro a2 r2 ha2 hr2 h1 h2
              cases ha2
              exact absurd hty (by simp [h1, h2])
            · intro hnone; cases hnone
          · have heq : updateLciaResults l data now = l := by
              simp only [updateLciaResults, hact, hres]
              rw [if_neg hty]
            refine ⟨⟨[], by simp [heq], by simp⟩, ?_, ?_, ?_, ?_⟩
            · constructor
              · rintro ⟨a2, r2, ha2, hr2, hty2⟩
                cases ha2
                exact absurd hty2 hty
              · intro hne; exact absurd heq hne
            · intro a2 ha2 hr2
              cases ha2
              rw [hres] at hr2
              cases hr2
            · intro a2 r2 ha2 hr2 h1 h2; exact heq
            · intro hnone; cases hnone

/-- A chat response carrying a `search_failed` action with a (spurious)
results object, which the guard must still reject by type. -/
def searchFailedResponse : ChatResponse :=
  ⟨"no data found", some ⟨"search_failed", some ⟨[], none, none⟩⟩⟩

/-- Witness for C10: the guard theorem applied to a concrete
`search_failed` response leaves a concrete results list unchanged. -/
theorem lcia_results_append_guard_witness :
    updateLciaResults [] searchFailedResponse "t0" = [] :=
  (lcia_results_append_guard [] searchFailedResponse "t0").2.2.2.1
    ⟨"search_failed", some ⟨[], none, none⟩⟩ ⟨[], none, none⟩ rfl rfl
    (by decide) (by decide)

end LcaApp
